import Mathlib

/-!
Verification development for the podbotnik repository (a RAG podcast
Q&A engine, `src/chatbot.py` and its API adapter `src/api.py`).

The Python source is shallowly embedded below: pure helpers become Lean
functions, the mutable chatbot object becomes explicit state passing,
Python `ValueError` becomes `Option`/`Except`, and the two external
collaborators (the minsearch index's `search` and the Groq LLM's
`generate_answer`) are passed in as function-typed oracles.
-/

namespace Podbotnik

/-- One ASCII whitespace character in the sense of Python's `str.strip()`
and `int()` (space, tab, newline, carriage return, vertical tab, form
feed).  Python also strips some Unicode spaces; those never occur in the
corpus of this repository and are out of scope of the embedding. -/
def isPySpace (c : Char) : Bool :=
  c = ' ' || c = '\t' || c = '\n' || c = '\r' || c = Char.ofNat 11 || c = Char.ofNat 12

/-- Python `str.strip()` with no argument: remove leading and trailing
whitespace characters. -/
def pyStrip (s : String) : String :=
  ⟨((s.toList.dropWhile isPySpace).reverse.dropWhile isPySpace).reverse⟩

/-- Value of a list of decimal digit characters. -/
def digitsToNat (ds : List Char) : Nat :=
  ds.foldl (fun acc c => acc * 10 + (c.toNat - ('0').toNat)) 0

/-- Python's `int(s)` builtin on a decimal string: strips surrounding
whitespace, accepts an optional sign followed by one or more ASCII
digits, and raises `ValueError` (here `none`) otherwise.  (Python also
accepts underscores between digits and Unicode digits; neither occurs
in this repository's inputs and both are out of scope.) -/
def pyInt (s : String) : Option Int :=
  let cs := ((s.toList.dropWhile isPySpace).reverse.dropWhile isPySpace).reverse
  match cs with
  | [] => none
  | c :: rest =>
    let signed : Int × List Char :=
      if c = '-' then (-1, rest) else if c = '+' then (1, rest) else (1, c :: rest)
    if signed.2 ≠ [] && signed.2.all (·.isDigit) then
      some (signed.1 * (digitsToNat signed.2 : Int))
    else
      none

/-- Python's `s.split(sep)` for a single separator character, on the
character list: splitting the empty list yields one empty component,
and every separator occurrence opens a new component. -/
def pySplitChars (sep : Char) : List Char → List (List Char)
  | [] => [[]]
  | c :: cs =>
    let rest := pySplitChars sep cs
    if c = sep then
      [] :: rest
    else
      match rest with
      | r :: rs => (c :: r) :: rs
      | [] => [[c]]

/-- Python's `s.split(sep)` for a single separator character. -/
def pySplit (s : String) (sep : Char) : List String :=
  (pySplitChars sep s.toList).map (fun cs => ⟨cs⟩)

/-- `PodcastChatbot._time_to_seconds` (src/chatbot.py:113-122): split on
`:`; two components mean `MM:SS`, three mean `HH:MM:SS`, any other
count returns `0`.  `map(int, parts)` raises `ValueError` on a
non-integer component, modelled as `none`. -/
def time_to_seconds (time_str : String) : Option Int :=
  let parts := pySplit time_str ':'
  if parts.length = 2 then
    match parts.map pyInt with
    | [some minutes, some seconds] => some (minutes * 60 + seconds)
    | _ => none
  else if parts.length = 3 then
    match parts.map pyInt with
    | [some hours, some minutes, some seconds] =>
        some (hours * 3600 + minutes * 60 + seconds)
    | _ => none
  else
    some 0

/-- Whether `sub` occurs as a contiguous run inside `l`. -/
def listContainsSub (sub : List Char) : List Char → Bool
  | [] => sub.isEmpty
  | c :: tl => sub.isPrefixOf (c :: tl) || listContainsSub sub tl

/-- Python's substring test `sub in s`. -/
def strContains (s sub : String) : Bool :=
  listContainsSub sub.toList s.toList

/-- `PodcastChatbot._build_timestamp_link` (src/chatbot.py:124-157):
empty base URL returns the empty string before any parsing; otherwise
the clock string is parsed (a `ValueError` from `_time_to_seconds`
propagates, modelled as `none`) and the deep link is built by substring
dispatch: YouTube URLs get `t=<seconds>` as a query parameter, Spotify
and every other platform get the `#t=<seconds>` media fragment. -/
def build_timestamp_link (url : String) (time_str : String) : Option String :=
  if url = "" then
    some ""
  else
    (time_to_seconds time_str).map (fun seconds =>
      if strContains url "youtube.com" || strContains url "youtu.be" then
        let separator := if strContains url "?" then "&" else "?"
        url ++ separator ++ "t=" ++ toString seconds
      else if strContains url "spotify.com" then
        url ++ "#t=" ++ toString seconds
      else
        url ++ "#t=" ++ toString seconds)

/-- Per-episode metadata stored in `PodcastChatbot.episodes`
(src/chatbot.py:64-70, 96-102). -/
structure EpisodeMeta where
  title : String
  number : Int
  video_url : String
  audio_url : String
  transcript : String
deriving Repr, DecidableEq

/-- The episode registry `self.episodes`: a Python dict keyed by
`episode_id`, modelled as an association list in insertion order
(updating an existing key keeps its position, a new key is appended,
exactly as CPython dicts behave). -/
abbrev Registry := List (String × EpisodeMeta)

/-- Keyed upsert on an insertion-ordered list: replace the (unique)
element carrying the same key in place, else append.  This is both how
a CPython dict behaves under `d[k] = v` and how the spec describes the
search index's re-indexing by `episode_id`. -/
def keyUpsert {α : Type} (key : α → String) : List α → α → List α
  | [], d => [d]
  | e :: es, d => if key e = key d then d :: es else e :: keyUpsert key es d

/-- Python `d[k] = v` on a dict modelled as an insertion-ordered
association list. -/
def dictSet (d : Registry) (k : String) (v : EpisodeMeta) : Registry :=
  keyUpsert Prod.fst d (k, v)

/-- Python `d.get(k)` / membership lookup on the registry. -/
def dictGet : Registry → String → Option EpisodeMeta
  | [], _ => none
  | p :: ps, k => if p.1 = k then some p.2 else dictGet ps k

/-- A document submitted to the minsearch index, and equally a search
hit returned from it (src/chatbot.py:73-78, 105-110): minsearch stores
and returns the documents it was given. -/
structure IndexedDoc where
  episode_id : String
  episode_title : String
  episode_number : Int
  text : String
deriving Repr, DecidableEq

/-- Modelled from the spec: `minsearch.Index.index_documents` is code of
the external search-index collaborator, not of this repository, so its
effect on the index contents is taken from the spec's invariant that
"an episode_id maps to exactly one Episode; re-adding the same id
overwrites metadata and re-indexes its text": the index contents are
keyed by `episode_id`, and indexing a document overwrites any document
already stored under the same id (keeping its position), else appends. -/
def index_documents (contents : List IndexedDoc) (docs : List IndexedDoc) :
    List IndexedDoc :=
  docs.foldl (keyUpsert IndexedDoc.episode_id) contents

/-- The mutable state of a `PodcastChatbot`: the episode registry and
the documents held by the minsearch index (src/chatbot.py:25-31). -/
structure ChatbotState where
  episodes : Registry
  indexContents : List IndexedDoc
deriving Repr, DecidableEq

/-- A freshly constructed `PodcastChatbot`: empty registry, empty index. -/
def initialChatbot : ChatbotState := ⟨[], []⟩

/-- `PodcastChatbot.add_transcript` (src/chatbot.py:85-111): store the
metadata under `episode_id` (overwriting), then index the one document. -/
def add_transcript (s : ChatbotState) (episode_id episode_title : String)
    (episode_number : Int) (transcript_text video_url audio_url : String) :
    ChatbotState :=
  let episodes := dictSet s.episodes episode_id
    ⟨episode_title, episode_number, video_url, audio_url, transcript_text⟩
  let doc : IndexedDoc := ⟨episode_id, episode_title, episode_number, transcript_text⟩
  ⟨episodes, index_documents s.indexContents [doc]⟩

/-- One record of the transcript JSON file
(src/chatbot.py:39-50); `video_url`/`audio_url` default to `""` via
`episode.get(...)`. -/
structure TranscriptRecord where
  episode_id : String
  episode_title : String
  episode_number : Int
  transcript : String
  video_url : String
  audio_url : String
deriving Repr, DecidableEq

/-- `PodcastChatbot.load_transcripts` (src/chatbot.py:35-83) after the
file has been read and parsed (file I/O is outside the embedding): for
each record store its metadata in the registry and collect a document;
finally submit all collected documents to the index in one call. -/
def load_transcripts (s : ChatbotState) (records : List TranscriptRecord) :
    ChatbotState :=
  let r := records.foldl
    (fun (acc : Registry × List IndexedDoc) episode =>
      (dictSet acc.1 episode.episode_id
        ⟨episode.episode_title, episode.episode_number,
         episode.video_url, episode.audio_url, episode.transcript⟩,
       acc.2 ++ [⟨episode.episode_id, episode.episode_title,
                  episode.episode_number, episode.transcript⟩]))
    (s.episodes, ([] : List IndexedDoc))
  ⟨r.1, if r.2.isEmpty then s.indexContents else index_documents s.indexContents r.2⟩

/-- A citable source record built per hit (src/chatbot.py:207-222).
`video_link`/`audio_link` model optional dict keys: `none` means the
key is absent from the Python dict, `some u` means it is present with
value `u`. -/
structure Source where
  episode : String
  episode_number : Int
  segment : String
  timestamp : String
  video_link : Option String
  audio_link : Option String
deriving Repr, DecidableEq

/-- The per-hit body of the source-building loop in
`PodcastChatbot.answer_question` (src/chatbot.py:195-224): excerpt the
hit's text (`text[:200] + "..."` only when `len(text) > 200`), and
attach `video_link`/`audio_link` keys only when the registry holds the
hit's episode with a non-empty URL (a missing episode yields `{}`, so
both URLs default to `""` and both keys are omitted). -/
def sourceOfHit (episodes : Registry) (result : IndexedDoc) : Source :=
  let text := result.text
  let episode := dictGet episodes result.episode_id
  let video_url := match episode with
    | some e => e.video_url
    | none => ""
  let audio_url := match episode with
    | some e => e.audio_url
    | none => ""
  { episode := result.episode_title
    episode_number := result.episode_number
    segment := if text.length > 200 then (⟨text.toList.take 200⟩ : String) ++ "..." else text
    timestamp := ""
    video_link := if video_url ≠ "" then some video_url else none
    audio_link := if audio_url ≠ "" then some audio_url else none }

/-- The fixed sentinel answer returned when retrieval is empty
(src/chatbot.py:186). -/
def emptyResultAnswer : String :=
  "I couldn't find relevant information in the podcast transcripts to answer your question."

/-- The dictionary returned by `PodcastChatbot.answer_question`
(src/chatbot.py:184-189, 235-239). -/
structure AnswerResult where
  answer : String
  sources : List Source
  context_used : Nat
deriving Repr, DecidableEq

/-- The prompt template of `GroqLLM.generate_answer` (src/llm.py:81-89). -/
def generate_answer_prompt (question context : String) : String :=
  "You are a helpful podcast assistant. Based on the provided transcript segments, \n" ++
  "answer the user's question concisely and accurately. Keep your answer brief (2-3 sentences max).\n" ++
  "\nQuestion: " ++ question ++ "\n\nRelevant transcript excerpts:\n" ++ context ++
  "\n\nAnswer:"

/-- The type of the external Groq completion oracle
`GroqLLM.generate(prompt, max_tokens)` (src/llm.py:33-62). -/
abbrev GenOracle := String → Int → String

/-- `GroqLLM.generate_answer` (src/llm.py:64-91): build the fixed
prompt and call the completion oracle with it. -/
def generate_answer (gen : GenOracle) (question context : String)
    (max_tokens : Int) : String :=
  gen (generate_answer_prompt question context) max_tokens

/-- The type of the external minsearch ranking oracle
`Index.search(query, fields, max_results)`: a ranked sequence of hits. -/
abbrev SearchOracle := String → List String → Int → List IndexedDoc

/-- `PodcastChatbot.answer_question` (src/chatbot.py:159-239): query the
index oracle with the question and `max_context_segments`; on zero hits
return the sentinel result without touching the LLM; otherwise build one
labeled context block and one `Source` per hit in rank order, join the
blocks, call the LLM on the assembled prompt, and package the result. -/
def answer_question (search : SearchOracle) (gen : GenOracle)
    (episodes : Registry) (question : String) (max_context_segments : Int) :
    AnswerResult :=
  let search_results := search question ["episode_title", "text"] max_context_segments
  if search_results.isEmpty then
    { answer := emptyResultAnswer, sources := [], context_used := 0 }
  else
    let context_parts := search_results.map (fun result =>
      "[Episode: " ++ result.episode_title ++ "] " ++ result.text)
    let sources := search_results.map (sourceOfHit episodes)
    let context := String.intercalate "\n\n" context_parts
    let answer := generate_answer gen question context 400
    { answer := answer, sources := sources, context_used := search_results.length }

/-- One row of the `PodcastChatbot.list_episodes` output
(src/chatbot.py:243-248). -/
structure EpisodeEntry where
  episode_id : String
  title : String
  number : Int
deriving Repr, DecidableEq

/-- The comparison Python's `sorted` applies under the key
`lambda x: x[1]["number"]` (src/chatbot.py:249-252). -/
def numberLEr (a b : String × EpisodeMeta) : Prop :=
  a.2.number ≤ b.2.number

instance : DecidableRel numberLEr := fun a b => Int.decLe a.2.number b.2.number

instance : IsTotal (String × EpisodeMeta) numberLEr :=
  ⟨fun a b => le_total a.2.number b.2.number⟩

instance : IsTrans (String × EpisodeMeta) numberLEr :=
  ⟨fun _ _ _ hab hbc => le_trans hab hbc⟩

/-- `PodcastChatbot.list_episodes` (src/chatbot.py:241-253): sort the
registry items by episode number with Python's `sorted` (a stable sort,
modelled by `List.insertionSort`, likewise stable — a stable sort by a
total preorder is unique, so the two agree) and project each item to
its id, title and number. -/
def list_episodes (episodes : Registry) : List EpisodeEntry :=
  (episodes.insertionSort numberLEr).map
    (fun p => ⟨p.1, p.2.title, p.2.number⟩)

/-- The projection `list_episodes` applies to each registry item. -/
def entryOfItem (p : String × EpisodeMeta) : EpisodeEntry :=
  ⟨p.1, p.2.title, p.2.number⟩

/-- An HTTP error raised by the FastAPI layer (src/api.py). -/
structure HTTPError where
  status : Nat
  detail : String
deriving Repr, DecidableEq

/-- The `/api/ask` handler `ask_question` (src/api.py:105-125) after
startup has installed a chatbot: a blank question (Python
`not request.question.strip()`) is rejected with a 400 error before the
engine — and hence the search index or the LLM — is reached; otherwise
the engine's `answer_question` runs. -/
def api_ask_question (search : SearchOracle) (gen : GenOracle)
    (episodes : Registry) (question : String) (max_context_segments : Int) :
    Except HTTPError AnswerResult :=
  if pyStrip question = "" then
    .error ⟨400, "Question cannot be empty"⟩
  else
    .ok (answer_question search gen episodes question max_context_segments)

/-- A concrete hit used by the closed instances below. -/
def demoHit : IndexedDoc := ⟨"ep1", "Title One", 1, "Some transcript text."⟩

/-- A concrete search oracle returning one hit for every query. -/
def demoSearch : SearchOracle := fun _ _ _ => [demoHit]

/-- A concrete search oracle that never matches. -/
def demoSearchEmpty : SearchOracle := fun _ _ _ => []

/-- A concrete search oracle whose answer depends on the requested
result count, distinguishing a query for 3 results from one for 0. -/
def demoSearchProbe : SearchOracle := fun _ _ k => if k = 3 then [demoHit] else []

/-- A concrete completion oracle. -/
def demoGen : GenOracle := fun _ _ => "A generated answer."

end Podbotnik

namespace Podbotnik

/-! ## Theorems -/

/-- C5: `parseClock` (`_time_to_seconds`) returns `minutes*60+seconds`
for every 2-component clock string of non-negative integers and
`hours*3600+minutes*60+seconds` for every 3-component one, and returns
`0` for every string whose component count is neither 2 nor 3 (0, 1 or
4+) rather than raising; in particular `parseClock "05:30" = 330`,
`parseClock "1:02:03" = 3723` and `parseClock "bad" = 0`. -/
theorem C5_parseClock_spec :
    (∀ (s a b : String) (m sec : Int),
      pySplit s ':' = [a, b] → pyInt a = some m → pyInt b = some sec →
      0 ≤ m → 0 ≤ sec →
      time_to_seconds s = some (m * 60 + sec)) ∧
    (∀ (s a b c : String) (hr m sec : Int),
      pySplit s ':' = [a, b, c] →
      pyInt a = some hr → pyInt b = some m → pyInt c = some sec →
      0 ≤ hr → 0 ≤ m → 0 ≤ sec →
      time_to_seconds s = some (hr * 3600 + m * 60 + sec)) ∧
    (∀ s : String, (pySplit s ':').length ≠ 2 → (pySplit s ':').length ≠ 3 →
      time_to_seconds s = some 0) ∧
    time_to_seconds "05:30" = some 330 ∧
    time_to_seconds "1:02:03" = some 3723 ∧
    time_to_seconds "bad" = some 0 := by
  refine ⟨?_, ?_, ?_, by decide, by decide, by decide⟩
  · intro s a b m sec hsplit ha hb _ _
    simp [time_to_seconds, hsplit, ha, hb]
  · intro s a b c hr m sec hsplit ha hb hc _ _ _
    simp [time_to_seconds, hsplit, ha, hb, hc]
  · intro s h2 h3
    simp [time_to_seconds, h2, h3]

/-- Witness for C5: the theorem applied to the concrete clock string
`"05:30"`, which splits into components `"05"` and `"30"`. -/
theorem C5_parseClock_spec_witness : time_to_seconds "05:30" = some 330 :=
  C5_parseClock_spec.1 "05:30" "05" "30" 5 30 (by decide) (by decide) (by decide)
    (by decide) (by decide)

/-- C6: `buildDeepLink` (`_build_timestamp_link`) returns `""` for an
empty base URL; for a YouTube URL it appends `t=<seconds>` as a query
parameter with `&` when the URL already has a `?` and `?` otherwise;
for every other non-empty URL (Spotify included) it appends the
fragment `#t=<seconds>`; in particular
`buildDeepLink "https://youtube.com/watch?v=X" "01:00"` is
`"https://youtube.com/watch?v=X&t=60"` and `buildDeepLink "" "01:00"`
is `""`. -/
theorem C6_buildDeepLink_spec :
    (∀ t : String, build_timestamp_link "" t = some "") ∧
    (∀ (url t : String) (sec : Int), url ≠ "" → time_to_seconds t = some sec →
      ((strContains url "youtube.com" = true ∨ strContains url "youtu.be" = true) →
        build_timestamp_link url t =
          some (url ++ (if strContains url "?" then "&" else "?") ++ "t=" ++ toString sec)) ∧
      (strContains url "youtube.com" = false → strContains url "youtu.be" = false →
        build_timestamp_link url t = some (url ++ "#t=" ++ toString sec))) ∧
    build_timestamp_link "https://youtube.com/watch?v=X" "01:00"
      = some "https://youtube.com/watch?v=X&t=60" ∧
    build_timestamp_link "" "01:00" = some "" := by
  refine ⟨?_, ?_, by decide, by decide⟩
  · intro t
    simp [build_timestamp_link]
  · intro url t sec hurl hts
    constructor
    · intro hyt
      rcases hyt with h | h <;>
        simp [build_timestamp_link, hurl, hts, h]
    · intro h1 h2
      simp [build_timestamp_link, hurl, hts, h1, h2]

/-- Witness for C6: the theorem applied to the concrete YouTube URL of
the spec's example, whose clock string `"01:00"` parses to 60 seconds. -/
theorem C6_buildDeepLink_spec_witness :
    build_timestamp_link "https://youtube.com/watch?v=X" "01:00"
      = some "https://youtube.com/watch?v=X&t=60" := by
  have h := (C6_buildDeepLink_spec.2.1 "https://youtube.com/watch?v=X" "01:00" 60
    (by decide) (by decide)).1 (Or.inl (by decide))
  simpa using h

/-- C10: the lenient zero-fallback of the clock parser covers only the
component count: a clock string with exactly 2 or 3 colon-separated
components one of which `int()` rejects makes `_time_to_seconds` raise
`ValueError` (modelled `none`), and `_build_timestamp_link` with a
non-empty base URL then propagates the error instead of producing a
link; in particular on `"aa:bb"`. -/
theorem C10_invalid_component_raises :
    (∀ s : String,
      ((pySplit s ':').length = 2 ∨ (pySplit s ':').length = 3) →
      (∃ p ∈ pySplit s ':', pyInt p = none) →
      time_to_seconds s = none) ∧
    (∀ url s : String, url ≠ "" → time_to_seconds s = none →
      build_timestamp_link url s = none) ∧
    time_to_seconds "aa:bb" = none ∧
    build_timestamp_link "https://youtube.com/watch?v=X" "aa:bb" = none := by
  refine ⟨?_, ?_, by decide, by decide⟩
  · intro s hlen ⟨p, hp, hpnone⟩
    rcases hlen with h2 | h3
    · obtain ⟨a, b, hab⟩ := List.length_eq_two.mp h2
      rw [hab] at hp
      simp only [List.mem_cons, List.not_mem_nil, or_false] at hp
      rcases hp with rfl | rfl
      · simp [time_to_seconds, hab, hpnone]
      · simp [time_to_seconds, hab, hpnone]
    · obtain ⟨a, b, c, habc⟩ := List.length_eq_three.mp h3
      rw [habc] at hp
      simp only [List.mem_cons, List.not_mem_nil, or_false] at hp
      rcases hp with rfl | rfl | rfl
      · simp [time_to_seconds, habc, hpnone]
      · simp [time_to_seconds, habc, hpnone]
      · simp [time_to_seconds, habc, hpnone]
  · intro url s hurl hts
    simp [build_timestamp_link, hurl, hts]

/-- Witness for C10: the theorem applied to the clock string `"aa:bb"`
(two components, neither an integer) and a non-empty URL. -/
theorem C10_invalid_component_raises_witness :
    build_timestamp_link "https://youtube.com/watch?v=X" "aa:bb" = none :=
  C10_invalid_component_raises.2.1 "https://youtube.com/watch?v=X" "aa:bb"
    (by decide)
    (C10_invalid_component_raises.1 "aa:bb" (Or.inl (by decide))
      ⟨"aa", by decide, by decide⟩)

/-- C4: the `Source` built for a hit has excerpt equal to the hit's
text when its length is at most 200 characters (exactly 200 included,
no suffix) and the first 200 characters followed by `"..."` when
longer; its `video_link` key is present (`≠ none`) iff the registry
holds the hit's episode with a non-empty `video_url`, in which case it
carries that URL, and likewise `audio_link` for `audio_url` — with the
episode absent or both URLs empty, both keys are absent (`none`). -/
theorem C4_source_fields (episodes : Registry) (hit : IndexedDoc) :
    ((sourceOfHit episodes hit).segment =
      if hit.text.length ≤ 200 then hit.text
      else (⟨hit.text.toList.take 200⟩ : String) ++ "...") ∧
    ((sourceOfHit episodes hit).video_link ≠ none ↔
      ∃ e, dictGet episodes hit.episode_id = some e ∧ e.video_url ≠ "") ∧
    ((sourceOfHit episodes hit).audio_link ≠ none ↔
      ∃ e, dictGet episodes hit.episode_id = some e ∧ e.audio_url ≠ "") ∧
    (∀ e, dictGet episodes hit.episode_id = some e → e.video_url ≠ "" →
      (sourceOfHit episodes hit).video_link = some e.video_url) ∧
    (∀ e, dictGet episodes hit.episode_id = some e → e.audio_url ≠ "" →
      (sourceOfHit episodes hit).audio_link = some e.audio_url) := by
  refine ⟨?_, ?_, ?_, ?_, ?_⟩
  · by_cases h : hit.text.length ≤ 200
    · have h' : ¬ hit.text.length > 200 := by omega
      simp [sourceOfHit, h, h']
    · have h' : hit.text.length > 200 := by omega
      simp [sourceOfHit, h, h']
  · cases he : dictGet episodes hit.episode_id with
    | none => simp [sourceOfHit, he]
    | some e =>
      by_cases hv : e.video_url = "" <;> simp [sourceOfHit, he, hv]
  · cases he : dictGet episodes hit.episode_id with
    | none => simp [sourceOfHit, he]
    | some e =>
      by_cases hv : e.audio_url = "" <;> simp [sourceOfHit, he, hv]
  · intro e he hv
    simp [sourceOfHit, he, hv]
  · intro e he hv
    simp [sourceOfHit, he, hv]

/-- Witness for C4: a concrete registry and hit — a 250-character text
is cut to 200 characters plus `"..."`, the episode has a video URL but
no audio URL, so exactly the `video_link` key is present. -/
theorem C4_source_fields_witness :
    (sourceOfHit
        [("ep1", ⟨"T", 1, "https://v", "", "x"⟩)]
        ⟨"ep1", "T", 1, (⟨List.replicate 250 'a'⟩ : String)⟩).video_link
      = some "https://v" := by
  have h := (C4_source_fields
    [("ep1", ⟨"T", 1, "https://v", "", "x"⟩)]
    ⟨"ep1", "T", 1, (⟨List.replicate 250 'a'⟩ : String)⟩).2.2.2.1
    ⟨"T", 1, "https://v", "", "x"⟩ (by decide) (by decide)
  simpa using h

/-- C1: whenever the search oracle returns a non-empty hit sequence for
the question, `answer_question` returns `context_used` equal to the
length of `sources`, and `sources` is exactly one `Source` per hit in
the oracle's ranking order (a `map` over the hits: nothing re-ranked,
dropped or reordered). -/
theorem C1_sources_match_hits (search : SearchOracle) (gen : GenOracle)
    (episodes : Registry) (question : String) (k : Int)
    (hne : search question ["episode_title", "text"] k ≠ []) :
    (answer_question search gen episodes question k).context_used
      = (answer_question search gen episodes question k).sources.length ∧
    (answer_question search gen episodes question k).sources
      = (search question ["episode_title", "text"] k).map (sourceOfHit episodes) := by
  simp [answer_question, List.isEmpty_iff, hne]

/-- Witness for C1: the theorem applied to a concrete oracle that
returns one hit. -/
theorem C1_sources_match_hits_witness :
    (answer_question demoSearch demoGen [] "q" 3).context_used
      = (answer_question demoSearch demoGen [] "q" 3).sources.length ∧
    (answer_question demoSearch demoGen [] "q" 3).sources
      = (demoSearch "q" ["episode_title", "text"] 3).map (sourceOfHit []) :=
  C1_sources_match_hits demoSearch demoGen [] "q" 3 (by decide)

/-- C2: whenever the search oracle returns zero hits for the question,
`answer_question` returns the fixed sentinel answer, an empty sources
list and `context_used = 0`, and the answer generator is never invoked
on that call — the result does not depend on the generator oracle at
all. -/
theorem C2_empty_retrieval (search : SearchOracle) (gen : GenOracle)
    (episodes : Registry) (question : String) (k : Int)
    (hempty : search question ["episode_title", "text"] k = []) :
    answer_question search gen episodes question k
      = { answer := emptyResultAnswer, sources := [], context_used := 0 } ∧
    ∀ gen' : GenOracle,
      answer_question search gen' episodes question k
        = answer_question search gen episodes question k := by
  refine ⟨?_, ?_⟩
  · simp [answer_question, hempty]
  · intro gen'
    simp [answer_question, hempty]

/-- Witness for C2: the theorem applied to a concrete oracle that never
matches. -/
theorem C2_empty_retrieval_witness :
    answer_question demoSearchEmpty demoGen [] "q" 3
      = { answer := emptyResultAnswer, sources := [], context_used := 0 } :=
  (C2_empty_retrieval demoSearchEmpty demoGen [] "q" 3 rfl).1

/-- Counterexample to C8 as stated: `answer_question` does NOT treat
`max_context_segments = 0` as "use default 3" — it queries the index
oracle with `0` itself, so against an oracle whose answer depends on
the requested count the call with `0` differs from the call with the
default `3`. -/
theorem C8_counterexample :
    ¬ (answer_question demoSearchProbe demoGen [] "q" 0
        = answer_question demoSearchProbe demoGen [] "q" 3) := by
  decide

/-- C8 (amended): `answer_question` passes `max_context_segments`
through to the index oracle unchanged, whatever its sign — the call
consults the oracle exactly at the given count (two oracles agreeing
there give identical results); the default of 3 exists only as the
Python parameter default. -/
theorem C8_count_passthrough (search search' : SearchOracle) (gen : GenOracle)
    (episodes : Registry) (question : String) (k : Int)
    (h : search question ["episode_title", "text"] k
        = search' question ["episode_title", "text"] k) :
    answer_question search gen episodes question k
      = answer_question search' gen episodes question k := by
  simp only [answer_question, h]

/-- Witness for C8 (amended): two concrete oracles that agree on the
count 0 (both return no hits there) give identical results at 0. -/
theorem C8_count_passthrough_witness :
    answer_question demoSearchEmpty demoGen [] "q" 0
      = answer_question demoSearchProbe demoGen [] "q" 0 :=
  C8_count_passthrough demoSearchEmpty demoSearchProbe demoGen [] "q" 0 (by decide)

/-- C9: a blank or whitespace-only question is rejected by the API
boundary (`/api/ask`) with the 400 "Question cannot be empty" error
before the engine runs, so neither the search index nor the answer
generator is invoked — the outcome does not depend on either oracle. -/
theorem C9_blank_question_rejected (search : SearchOracle) (gen : GenOracle)
    (episodes : Registry) (question : String) (k : Int)
    (hblank : question.toList.all isPySpace = true) :
    api_ask_question search gen episodes question k
      = .error ⟨400, "Question cannot be empty"⟩ ∧
    ∀ (search' : SearchOracle) (gen' : GenOracle),
      api_ask_question search' gen' episodes question k
        = api_ask_question search gen episodes question k := by
  have h1 : question.toList.dropWhile isPySpace = [] := by
    rw [List.dropWhile_eq_nil_iff]
    intro x hx
    exact List.all_eq_true.mp hblank x hx
  have hstrip : pyStrip question = "" := by
    unfold pyStrip
    rw [h1]
    rfl
  refine ⟨?_, ?_⟩
  · simp [api_ask_question, hstrip]
  · intro search' gen'
    simp [api_ask_question, hstrip]

/-- Witness for C9: the theorem applied to the whitespace-only question
consisting of a space, a tab and a newline. -/
theorem C9_blank_question_rejected_witness :
    api_ask_question demoSearch demoGen [] " \t\n" 3
      = .error ⟨400, "Question cannot be empty"⟩ :=
  (C9_blank_question_rejected demoSearch demoGen [] " \t\n" 3 (by decide)).1

/-- `list_episodes` in terms of `numberLEr` and `entryOfItem`. -/
theorem list_episodes_eq (episodes : Registry) :
    list_episodes episodes = (episodes.insertionSort numberLEr).map entryOfItem :=
  rfl

/-- C7: `list_episodes` returns one entry per loaded episode (a
permutation of the registry's rows), ordered ascending by episode
number, with ties kept in insertion order (for each number `n`, the
entries numbered `n` appear exactly as they do in the registry); on an
empty registry it returns `[]`; episodes loaded with numbers 3, 1, 2
come back ordered 1, 2, 3. -/
theorem C7_list_episodes_spec (episodes : Registry) :
    list_episodes ([] : Registry) = [] ∧
    (list_episodes episodes).Perm (episodes.map entryOfItem) ∧
    (list_episodes episodes).Pairwise (fun a b => a.number ≤ b.number) ∧
    (∀ n : Int,
      (list_episodes episodes).filter (fun e => e.number = n)
        = (episodes.map entryOfItem).filter (fun e => e.number = n)) ∧
    list_episodes
        [("a", ⟨"A", 3, "", "", "ta"⟩), ("b", ⟨"B", 1, "", "", "tb"⟩),
         ("c", ⟨"C", 2, "", "", "tc"⟩)]
      = [⟨"b", "B", 1⟩, ⟨"c", "C", 2⟩, ⟨"a", "A", 3⟩] := by
  refine ⟨by decide, ?_, ?_, ?_, by decide⟩
  · rw [list_episodes_eq]
    exact (List.perm_insertionSort numberLEr episodes).map entryOfItem
  · rw [list_episodes_eq]
    have hs : (episodes.insertionSort numberLEr).Pairwise numberLEr :=
      List.sorted_insertionSort numberLEr episodes
    rw [List.pairwise_map]
    exact hs
  · intro n
    have key : (episodes.insertionSort numberLEr).filter (fun p => decide (p.2.number = n))
        = episodes.filter (fun p => decide (p.2.number = n)) := by
      have hc : (episodes.filter (fun p => decide (p.2.number = n))).Pairwise numberLEr := by
        apply List.pairwise_of_forall_mem_list
        intro a ha b hb
        have ha' := (List.mem_filter.mp ha).2
        have hb' := (List.mem_filter.mp hb).2
        simp only [decide_eq_true_eq] at ha' hb'
        unfold numberLEr
        omega
      have hsub : List.Sublist (episodes.filter (fun p => decide (p.2.number = n))) episodes :=
        List.filter_sublist episodes
      have h₁ : List.Sublist (episodes.filter (fun p => decide (p.2.number = n)))
          (episodes.insertionSort numberLEr) :=
        List.sublist_insertionSort hc hsub
      have h₂ : List.Sublist (episodes.filter (fun p => decide (p.2.number = n)))
          ((episodes.insertionSort numberLEr).filter (fun p => decide (p.2.number = n))) := by
        have h := h₁.filter (fun p => decide (p.2.number = n))
        simpa [List.filter_filter] using h
      have h₃ : ((episodes.insertionSort numberLEr).filter
            (fun p => decide (p.2.number = n))).length
          = (episodes.filter (fun p => decide (p.2.number = n))).length :=
        ((List.perm_insertionSort numberLEr episodes).filter
          (fun p => decide (p.2.number = n))).length_eq
      exact (h₂.eq_of_length h₃.symm).symm
    rw [list_episodes_eq, List.filter_map, List.filter_map]
    exact congrArg (List.map entryOfItem) key

/-- Witness for C7: the theorem instantiated at the concrete registry
with episode numbers 3, 1, 2, whose listing comes back ordered. -/
theorem C7_list_episodes_spec_witness :
    list_episodes
        [("a", ⟨"A", 3, "", "", "ta"⟩), ("b", ⟨"B", 1, "", "", "tb"⟩),
         ("c", ⟨"C", 2, "", "", "tc"⟩)]
      = [⟨"b", "B", 1⟩, ⟨"c", "C", 2⟩, ⟨"a", "A", 3⟩] :=
  (C7_list_episodes_spec []).2.2.2.2

/-- After a keyed upsert the present keys are the inserted one plus the
previous ones. -/
theorem mem_keys_keyUpsert {α : Type} (key : α → String) (l : List α) (d : α)
    (x : String) :
    x ∈ (keyUpsert key l d).map key ↔ x = key d ∨ x ∈ l.map key := by
  induction l with
  | nil => simp [keyUpsert]
  | cons e es ih =>
    by_cases h : key e = key d
    · rw [show keyUpsert key (e :: es) d = d :: es from by simp [keyUpsert, h]]
      simp only [List.map_cons, List.mem_cons]
      rw [h]
      tauto
    · rw [show keyUpsert key (e :: es) d = e :: keyUpsert key es d from by
        simp [keyUpsert, h]]
      simp only [List.map_cons, List.mem_cons, ih]
      tauto

/-- A keyed upsert keeps the keys duplicate-free. -/
theorem nodupKeys_keyUpsert {α : Type} (key : α → String) {l : List α} (d : α)
    (hnd : (l.map key).Nodup) : ((keyUpsert key l d).map key).Nodup := by
  induction l with
  | nil => simp [keyUpsert]
  | cons e es ih =>
    rw [List.map_cons, List.nodup_cons] at hnd
    obtain ⟨hne, hnd'⟩ := hnd
    by_cases h : key e = key d
    · simp only [keyUpsert, if_pos h, List.map_cons, List.nodup_cons]
      exact ⟨h ▸ hne, hnd'⟩
    · simp only [keyUpsert, if_neg h, List.map_cons, List.nodup_cons]
      refine ⟨?_, ih hnd'⟩
      intro hmem
      rcases (mem_keys_keyUpsert key es d (key e)).mp hmem with heq | hmem'
      · exact h heq
      · exact hne hmem'

/-- On a list with duplicate-free keys, after a keyed upsert of `d` the
elements carrying `d`'s key are exactly `[d]`. -/
theorem filter_keyUpsert {α : Type} (key : α → String) {l : List α} (d : α)
    (hnd : (l.map key).Nodup) :
    (keyUpsert key l d).filter (fun e => decide (key e = key d)) = [d] := by
  induction l with
  | nil => simp [keyUpsert]
  | cons e es ih =>
    rw [List.map_cons, List.nodup_cons] at hnd
    obtain ⟨hne, hnd'⟩ := hnd
    by_cases h : key e = key d
    · simp only [keyUpsert, if_pos h, List.filter_cons, decide_eq_true_eq, if_pos rfl]
      have hfil : es.filter (fun e => decide (key e = key d)) = [] := by
        rw [List.filter_eq_nil_iff]
        intro x hx hpx
        simp only [decide_eq_true_eq] at hpx
        exact hne (h ▸ hpx ▸ List.mem_map_of_mem key hx)
      rw [hfil]
      simp
    · simp only [keyUpsert, if_neg h, List.filter_cons, decide_eq_true_eq, if_neg h]
      exact ih hnd'

/-- Python dict lookup after assignment: `d[k] = v` makes `d.get(k)`
return `v`. -/
theorem dictGet_dictSet_self (d : Registry) (k : String) (v : EpisodeMeta) :
    dictGet (dictSet d k v) k = some v := by
  induction d with
  | nil => simp [dictSet, keyUpsert, dictGet]
  | cons p ps ih =>
    by_cases h : p.1 = k
    · simp [dictSet, keyUpsert, dictGet, h]
    · simp only [dictSet, keyUpsert] at ih ⊢
      rw [if_neg (by simpa using h)]
      simpa [dictGet, h] using ih

/-- C3: adding a transcript under an `episode_id` that is already
registered — by a second `add_transcript` or by a subsequent
`load_transcripts` whose records contain that id — leaves the registry
mapping that id to exactly one episode carrying the second title,
number, URLs and transcript, and leaves the search index holding
exactly one document for that id, carrying only the latest transcript:
the first and second versions are never both retrievable. -/
theorem C3_duplicate_id_overwrites (s : ChatbotState)
    (hreg : (s.episodes.map Prod.fst).Nodup)
    (hidx : (s.indexContents.map IndexedDoc.episode_id).Nodup)
    (eid t₁ t₂ : String) (n₁ n₂ : Int) (tr₁ tr₂ v₁ v₂ a₁ a₂ : String) :
    (dictGet (add_transcript (add_transcript s eid t₁ n₁ tr₁ v₁ a₁)
        eid t₂ n₂ tr₂ v₂ a₂).episodes eid = some ⟨t₂, n₂, v₂, a₂, tr₂⟩) ∧
    ((add_transcript (add_transcript s eid t₁ n₁ tr₁ v₁ a₁)
        eid t₂ n₂ tr₂ v₂ a₂).episodes.filter (fun p => decide (p.1 = eid))
      = [(eid, ⟨t₂, n₂, v₂, a₂, tr₂⟩)]) ∧
    ((add_transcript (add_transcript s eid t₁ n₁ tr₁ v₁ a₁)
        eid t₂ n₂ tr₂ v₂ a₂).indexContents.filter
        (fun doc => decide (doc.episode_id = eid))
      = [⟨eid, t₂, n₂, tr₂⟩]) ∧
    ((load_transcripts (add_transcript s eid t₁ n₁ tr₁ v₁ a₁)
        [⟨eid, t₂, n₂, tr₂, v₂, a₂⟩]).episodes.filter (fun p => decide (p.1 = eid))
      = [(eid, ⟨t₂, n₂, v₂, a₂, tr₂⟩)]) ∧
    ((load_transcripts (add_transcript s eid t₁ n₁ tr₁ v₁ a₁)
        [⟨eid, t₂, n₂, tr₂, v₂, a₂⟩]).indexContents.filter
        (fun doc => decide (doc.episode_id = eid))
      = [⟨eid, t₂, n₂, tr₂⟩]) := by
  refine ⟨?_, ?_, ?_, ?_, ?_⟩
  · show dictGet (dictSet (dictSet s.episodes eid ⟨t₁, n₁, v₁, a₁, tr₁⟩)
        eid ⟨t₂, n₂, v₂, a₂, tr₂⟩) eid = some ⟨t₂, n₂, v₂, a₂, tr₂⟩
    exact dictGet_dictSet_self _ _ _
  · show (keyUpsert Prod.fst (dictSet s.episodes eid ⟨t₁, n₁, v₁, a₁, tr₁⟩)
        (eid, ⟨t₂, n₂, v₂, a₂, tr₂⟩)).filter (fun p => decide (p.1 = eid))
      = [(eid, ⟨t₂, n₂, v₂, a₂, tr₂⟩)]
    exact filter_keyUpsert Prod.fst (eid, ⟨t₂, n₂, v₂, a₂, tr₂⟩)
      (nodupKeys_keyUpsert Prod.fst (eid, ⟨t₁, n₁, v₁, a₁, tr₁⟩) hreg)
  · show (keyUpsert IndexedDoc.episode_id
        (keyUpsert IndexedDoc.episode_id s.indexContents ⟨eid, t₁, n₁, tr₁⟩)
        ⟨eid, t₂, n₂, tr₂⟩).filter (fun doc => decide (doc.episode_id = eid))
      = [⟨eid, t₂, n₂, tr₂⟩]
    exact filter_keyUpsert IndexedDoc.episode_id ⟨eid, t₂, n₂, tr₂⟩
      (nodupKeys_keyUpsert IndexedDoc.episode_id ⟨eid, t₁, n₁, tr₁⟩ hidx)
  · show (keyUpsert Prod.fst (dictSet s.episodes eid ⟨t₁, n₁, v₁, a₁, tr₁⟩)
        (eid, ⟨t₂, n₂, v₂, a₂, tr₂⟩)).filter (fun p => decide (p.1 = eid))
      = [(eid, ⟨t₂, n₂, v₂, a₂, tr₂⟩)]
    exact filter_keyUpsert Prod.fst (eid, ⟨t₂, n₂, v₂, a₂, tr₂⟩)
      (nodupKeys_keyUpsert Prod.fst (eid, ⟨t₁, n₁, v₁, a₁, tr₁⟩) hreg)
  · show (keyUpsert IndexedDoc.episode_id
        (keyUpsert IndexedDoc.episode_id s.indexContents ⟨eid, t₁, n₁, tr₁⟩)
        ⟨eid, t₂, n₂, tr₂⟩).filter (fun doc => decide (doc.episode_id = eid))
      = [⟨eid, t₂, n₂, tr₂⟩]
    exact filter_keyUpsert IndexedDoc.episode_id ⟨eid, t₂, n₂, tr₂⟩
      (nodupKeys_keyUpsert IndexedDoc.episode_id ⟨eid, t₁, n₁, tr₁⟩ hidx)

/-- Witness for C3: starting from a fresh chatbot, adding `"ep1"` twice
leaves one indexed document for `"ep1"`, carrying the second transcript. -/
theorem C3_duplicate_id_overwrites_witness :
    (add_transcript (add_transcript initialChatbot "ep1" "Old" 1 "old text" "" "")
        "ep1" "New" 2 "new text" "https://v" "https://a").indexContents.filter
        (fun doc => decide (doc.episode_id = "ep1"))
      = [⟨"ep1", "New", 2, "new text"⟩] :=
  (C3_duplicate_id_overwrites initialChatbot (by decide) (by decide)
    "ep1" "Old" "New" 1 2 "old text" "new text" "" "https://v" "" "https://a").2.2.1

end Podbotnik
